import Mathlib

/-!
Verification of the CuralisPatientMobile client against its specification.

The definitions below are shallow embeddings of the TypeScript source:
pure fragments become Lean functions, stateful handlers become explicit
state-passing functions, JS numbers become `Nat`/`Int`, byte buffers become
`List Nat`, and fallible calls are parametrised by their outcome.
-/

namespace Curalis

/-! ## Base64 encoding (model of `Buffer.toString('base64')`)

Standard base64 with `=` padding, used by `pressOut` in
`AICheckInScreen.tsx` to encode the recorded audio bytes. -/

def b64Alphabet : List Char :=
  "ABCDEFGHIJKLMNOPQRSTUVWXYZabcdefghijklmnopqrstuvwxyz0123456789+/".toList

def b64Char (n : Nat) : Char := b64Alphabet.getD n 'A'

def encodeBase64 : List Nat → List Char
  | [] => []
  | [b1] => [b64Char (b1 / 4), b64Char (b1 % 4 * 16), '=', '=']
  | [b1, b2] => [b64Char (b1 / 4), b64Char (b1 % 4 * 16 + b2 / 16), b64Char (b2 % 16 * 4), '=']
  | b1 :: b2 :: b3 :: rest =>
      b64Char (b1 / 4) :: b64Char (b1 % 4 * 16 + b2 / 16) ::
      b64Char (b2 % 16 * 4 + b3 / 64) :: b64Char (b3 % 64) :: encodeBase64 rest

/-! ## Push-to-talk state (`AICheckInScreen.tsx`)

`MicState` gathers the state cells and refs consulted by `pressIn` /
`pressOut` and by the `Pressable` that wires them up.  The `Pressable`
carries `disabled={isDone || isConnecting || !interviewStarted || !canSpeak}`,
so a press is delivered to `pressIn` only when that disjunction is false. -/

structure MicState where
  recording : Bool
  isPressing : Bool
  streaming : Bool
  canSpeak : Bool
  interviewStarted : Bool
  isDone : Bool
  isConnecting : Bool
  isAssistantSpeaking : Bool
  awaitingAvatarTask : Bool
  deriving DecidableEq, Repr

/-- Events emitted on the realtime socket by the press-to-talk handlers. -/
inductive SockEvent where
  | audioChunk (base64 : List Char) (mimeType : String) (isFinal : Bool)
  deriving DecidableEq, Repr

/-- Body of `pressIn` (lines 362-378).  `recorderOk` stands for whether
`recorder.prepareToRecordAsync(); recorder.record()` succeeded (the source
swallows the exception otherwise). -/
def pressInBody (s : MicState) (recorderOk : Bool) : MicState :=
  if s.isAssistantSpeaking || s.awaitingAvatarTask then
    { s with canSpeak := false }
  else
    let s1 := { s with isPressing := true }
    if !s1.interviewStarted then s1
    else if !s1.recording then
      if recorderOk then { s1 with recording := true, streaming := true } else s1
    else s1

/-- The `disabled` prop of the mic `Pressable` (line 694). -/
def micDisabled (s : MicState) : Bool :=
  s.isDone || s.isConnecting || !s.interviewStarted || !s.canSpeak

/-- A user press as the component delivers it: a disabled `Pressable`
invokes no handler, otherwise `pressIn` runs. -/
def onPressIn (s : MicState) (recorderOk : Bool) : MicState :=
  if micDisabled s then s else pressInBody s recorderOk

/-- `pressOut` (lines 380-401).  `bytes` is the content of the recorded
file (`none` models a null `recorder.uri`); `ioOk` is whether
`recorder.stop()` / `fetch` / `arrayBuffer` succeeded (the source catches
and falls through to `setRecording(false)` otherwise). -/
def recordedBase64 (bytes : Option (List Nat)) : List Char :=
  match bytes with
  | none => []
  | some bs => encodeBase64 bs

def pressOut (s : MicState) (bytes : Option (List Nat)) (ioOk : Bool) :
    MicState × List SockEvent :=
  if !s.recording then (s, [])
  else
    let s1 := { s with streaming := false, isPressing := false }
    if ioOk then
      let base64 : List Char := recordedBase64 bytes
      let evs :=
        if base64 ≠ [] ∧ base64.length > 1500 then
          [SockEvent.audioChunk base64 "audio/wav" true]
        else []
      ({ s1 with recording := false }, evs)
    else
      ({ s1 with recording := false }, [])

end Curalis

namespace Curalis

/-! ## WAV wrapping (`flushTTSBuffer`, lines 300-347)

The merged TTS bytes are wrapped in a 44-byte WAV header unless they
already start with the ASCII marker `RIFF`. -/

def u16le (v : Nat) : List Nat := [v % 256, v / 256 % 256]

def u32le (v : Nat) : List Nat :=
  [v % 256, v / 256 % 256, v / 2 ^ 16 % 256, v / 2 ^ 24 % 256]

def asciiStr (s : String) : List Nat := s.toList.map Char.toNat

/-- The header built by `flushTTSBuffer` for raw PCM bytes, mirroring the
sequence of `buffer.write` / `writeUInt32LE` / `writeUInt16LE` calls. -/
def wavHeader (dataSize : Nat) : List Nat :=
  let sampleRate := 24000
  let numChannels := 1
  let bitsPerSample := 16
  let byteRate := sampleRate * numChannels * bitsPerSample / 8
  let blockAlign := numChannels * bitsPerSample / 8
  asciiStr "RIFF" ++ u32le (36 + dataSize) ++ asciiStr "WAVE" ++ asciiStr "fmt " ++
    u32le 16 ++ u16le 1 ++ u16le numChannels ++ u32le sampleRate ++ u32le byteRate ++
    u16le blockAlign ++ u16le bitsPerSample ++ asciiStr "data" ++ u32le dataSize

/-- `merged.length >= 4 && merged.slice(0,4).toString('ascii') === 'RIFF'`. -/
def startsWithRIFF (bs : List Nat) : Bool :=
  decide (bs.length ≥ 4) && bs.take 4 == asciiStr "RIFF"

/-- The byte-level transformation performed by `flushTTSBuffer` on the merged
chunk bytes before the result is written to the playback file. -/
def wrapWav (merged : List Nat) : List Nat :=
  if startsWithRIFF merged then merged else wavHeader merged.length ++ merged

/-- Little-endian 16-bit read at `off`. -/
def readU16LE (bs : List Nat) (off : Nat) : Nat :=
  bs.getD off 0 + 256 * bs.getD (off + 1) 0

/-- Little-endian 32-bit read at `off`. -/
def readU32LE (bs : List Nat) (off : Nat) : Nat :=
  bs.getD off 0 + 256 * bs.getD (off + 1) 0 + 2 ^ 16 * bs.getD (off + 2) 0 +
    2 ^ 24 * bs.getD (off + 3) 0

end Curalis

namespace Curalis

/-- Claim C2: after a press-to-talk release, the captured audio is
base64-encoded and an `audio_chunk` event is emitted exactly when the
encoded string is longer than 1500 characters; a capture at or below the
threshold (including an empty buffer) emits nothing. -/
theorem c2_pressOut_emits_iff_over_threshold :
    ∀ (s : MicState) (bytes : Option (List Nat)) (ioOk : Bool),
      ((pressOut s bytes ioOk).2 =
        if s.recording = true ∧ ioOk = true ∧ (recordedBase64 bytes).length > 1500 then
          [SockEvent.audioChunk (recordedBase64 bytes) "audio/wav" true]
        else []) ∧
      (pressOut s (some []) ioOk).2 = [] := by
  intro s bytes ioOk
  constructor
  · unfold pressOut
    cases hr : s.recording <;> cases hio : ioOk <;> simp [hr, hio]
    by_cases hlen : (recordedBase64 bytes).length > 1500
    · have hne : recordedBase64 bytes ≠ [] := by
        intro h
        rw [h] at hlen
        simp at hlen
      simp [hlen, hne]
    · simp [hlen]
  · unfold pressOut
    cases hr : s.recording <;> cases hio : ioOk <;>
      simp [hr, hio, recordedBase64, encodeBase64]

/-- Claim C3: a press is refused whenever `canSpeak` is false (the
`Pressable` is disabled, so microphone capture never begins and the state
is unchanged), and a release without a prior successful recording start
is a no-op that emits no audio event. -/
theorem c3_push_to_talk_guards :
    (∀ (s : MicState) (recorderOk : Bool),
        s.canSpeak = false → onPressIn s recorderOk = s) ∧
    (∀ (s : MicState) (bytes : Option (List Nat)) (ioOk : Bool),
        s.recording = false → pressOut s bytes ioOk = (s, [])) := by
  constructor
  · intro s rOk h
    simp [onPressIn, micDisabled, h]
  · intro s bytes ioOk h
    simp [pressOut, h]

/-- Concrete instance of `c3_push_to_talk_guards`. -/
theorem c3_push_to_talk_guards_witness :
    onPressIn ⟨false, false, false, false, true, false, false, false, false⟩ true =
      ⟨false, false, false, false, true, false, false, false, false⟩ ∧
    pressOut ⟨false, false, false, false, true, false, false, false, false⟩ (some [1, 2]) true =
      (⟨false, false, false, false, true, false, false, false, false⟩, []) := by
  exact ⟨c3_push_to_talk_guards.1 _ true rfl, c3_push_to_talk_guards.2 _ (some [1, 2]) true rfl⟩

end Curalis

namespace Curalis

/-- Explicit byte list of the WAV header. -/
theorem wavHeader_eq (n : Nat) :
    wavHeader n =
      82 :: 73 :: 70 :: 70 ::
      ((36 + n) % 256) :: ((36 + n) / 256 % 256) :: ((36 + n) / 2 ^ 16 % 256) ::
        ((36 + n) / 2 ^ 24 % 256) ::
      87 :: 65 :: 86 :: 69 :: 102 :: 109 :: 116 :: 32 ::
      16 :: 0 :: 0 :: 0 :: 1 :: 0 :: 1 :: 0 ::
      192 :: 93 :: 0 :: 0 :: 128 :: 187 :: 0 :: 0 :: 2 :: 0 :: 16 :: 0 ::
      100 :: 97 :: 116 :: 97 ::
      (n % 256) :: (n / 256 % 256) :: (n / 2 ^ 16 % 256) :: (n / 2 ^ 24 % 256) :: [] := by
  rfl

/-- Claim C9: when the merged TTS bytes do not begin with `RIFF`,
`flushTTSBuffer` produces `44 + dataSize` bytes whose WAV header encodes
RIFF chunk size `36 + dataSize`, PCM format tag 1, 1 channel, sample rate
24000, byte rate 48000, block align 2, 16 bits per sample and data size
`dataSize`, followed by the original bytes unchanged; bytes already
beginning with `RIFF` pass through unmodified. -/
theorem c9_flushTTSBuffer_wav_header :
    ∀ bs : List Nat,
      (startsWithRIFF bs = false → 36 + bs.length < 2 ^ 32 →
        (wrapWav bs).length = 44 + bs.length ∧
        (wrapWav bs).take 4 = asciiStr "RIFF" ∧
        readU32LE (wrapWav bs) 4 = 36 + bs.length ∧
        ((wrapWav bs).drop 8).take 4 = asciiStr "WAVE" ∧
        ((wrapWav bs).drop 12).take 4 = asciiStr "fmt " ∧
        readU32LE (wrapWav bs) 16 = 16 ∧
        readU16LE (wrapWav bs) 20 = 1 ∧
        readU16LE (wrapWav bs) 22 = 1 ∧
        readU32LE (wrapWav bs) 24 = 24000 ∧
        readU32LE (wrapWav bs) 28 = 48000 ∧
        readU16LE (wrapWav bs) 32 = 2 ∧
        readU16LE (wrapWav bs) 34 = 16 ∧
        ((wrapWav bs).drop 36).take 4 = asciiStr "data" ∧
        readU32LE (wrapWav bs) 40 = bs.length ∧
        (wrapWav bs).drop 44 = bs) ∧
      (startsWithRIFF bs = true → wrapWav bs = bs) := by
  intro bs
  constructor
  · intro hR hlt
    have hw : wrapWav bs = wavHeader bs.length ++ bs := by
      simp [wrapWav, hR]
    rw [hw, wavHeader_eq]
    refine ⟨?_, rfl, ?_, rfl, rfl, rfl, rfl, rfl, ?_, ?_, rfl, rfl, rfl, ?_, ?_⟩
    · simp
      omega
    · show (36 + bs.length) % 256 + 256 * ((36 + bs.length) / 256 % 256) +
        2 ^ 16 * ((36 + bs.length) / 2 ^ 16 % 256) +
        2 ^ 24 * ((36 + bs.length) / 2 ^ 24 % 256) = 36 + bs.length
      omega
    · show 192 + 256 * 93 + 2 ^ 16 * 0 + 2 ^ 24 * 0 = 24000
      norm_num
    · show 128 + 256 * 187 + 2 ^ 16 * 0 + 2 ^ 24 * 0 = 48000
      norm_num
    · show bs.length % 256 + 256 * (bs.length / 256 % 256) +
        2 ^ 16 * (bs.length / 2 ^ 16 % 256) + 2 ^ 24 * (bs.length / 2 ^ 24 % 256) = bs.length
      omega
    · rfl
  · intro hR
    simp [wrapWav, hR]

/-- Concrete instance of `c9_flushTTSBuffer_wav_header`: wrapping three
raw PCM bytes, and passing a RIFF-prefixed buffer through. -/
theorem c9_flushTTSBuffer_wav_header_witness :
    (wrapWav [9, 9, 9]).length = 47 ∧ readU32LE (wrapWav [9, 9, 9]) 40 = 3 ∧
      wrapWav [82, 73, 70, 70, 5] = [82, 73, 70, 70, 5] := by
  have h1 := (c9_flushTTSBuffer_wav_header [9, 9, 9]).1 (by decide) (by norm_num)
  have h2 := (c9_flushTTSBuffer_wav_header [82, 73, 70, 70, 5]).2 (by decide)
  exact ⟨h1.1, h1.2.2.2.2.2.2.2.2.2.2.2.2.2.1, h2⟩

end Curalis

namespace Curalis

/-! ## Appointment booking (`AppointmentsScreen.tsx`, `confirmBook`)

Slots are compared by `startTime.getTime()`; the month grid is a
`Map<string, AvailabilitySlot[]>` keyed by the ISO day, modelled as a
function into `Option (List Slot)`. -/

structure Slot where
  startTime : Int
  endTime : Int
  deriving DecidableEq, Repr

structure BookState where
  slots : List Slot
  monthSlots : String → Option (List Slot)

inductive BookOutcome where
  | success
  | envelopeFail
  | throwFail
  deriving DecidableEq, Repr

/-- `prevSlots.filter(s => s.startTime.getTime() !== slot.startTime.getTime())`. -/
def removeByStart (t : Int) (l : List Slot) : List Slot :=
  l.filter fun s => decide (s.startTime ≠ t)

/-- The optimistic removal performed before the booking call (lines 104-125). -/
def optimisticRemove (st : BookState) (sel : Slot) (dateISO : String) : BookState :=
  { slots := removeByStart sel.startTime st.slots,
    monthSlots := fun k =>
      if k = dateISO then
        match st.monthSlots dateISO with
        | none => none
        | some daySlots =>
            let upd := removeByStart sel.startTime daySlots
            if upd.isEmpty then none else some upd
      else st.monthSlots k }

/-- The restore performed on `success:false` and on a thrown error
(lines 141-149 and 160-169). -/
def rollbackRestore (st : BookState) (sel : Slot) (dateISO : String) : BookState :=
  { slots := st.slots ++ [sel],
    monthSlots := fun k =>
      if k = dateISO then some (((st.monthSlots dateISO).getD []) ++ [sel])
      else st.monthSlots k }

/-- `confirmBook` as a state transformer; `outcome` is the result of
`api.bookAppointment`. -/
def confirmBook (doctorId : Option String) (st : BookState) (sel : Slot)
    (dateISO : String) (outcome : BookOutcome) : BookState :=
  match doctorId with
  | none => st
  | some _ =>
      let removed := optimisticRemove st sel dateISO
      match outcome with
      | .success => removed
      | .envelopeFail => rollbackRestore removed sel dateISO
      | .throwFail => rollbackRestore removed sel dateISO

/-- Permutation-equality on optional day lists. -/
def optPerm : Option (List Slot) → Option (List Slot) → Prop
  | none, none => True
  | some l1, some l2 => l1.Perm l2
  | _, _ => False

theorem optPerm_refl (o : Option (List Slot)) : optPerm o o := by
  cases o with
  | none => trivial
  | some l => exact List.Perm.refl l

/-- Removing the unique slot with a given start time and appending it back
is a permutation of the original list. -/
theorem removeByStart_append_perm (l : List Slot) (sel : Slot)
    (hmem : sel ∈ l)
    (hcount : l.countP (fun s => decide (s.startTime = sel.startTime)) = 1) :
    (removeByStart sel.startTime l ++ [sel]).Perm l := by
  induction l with
  | nil => simp at hmem
  | cons a tl ih =>
    by_cases ha : a.startTime = sel.startTime
    · have h0 : tl.countP (fun s => decide (s.startTime = sel.startTime)) = 0 := by
        rw [List.countP_cons_of_pos] at hcount
        · omega
        · simp [ha]
      have hsel : sel = a := by
        rcases List.mem_cons.mp hmem with h | h
        · exact h
        · exfalso
          have hx := List.countP_eq_zero.mp h0 sel h
          simp at hx
      have hfil : removeByStart sel.startTime (a :: tl) = tl := by
        unfold removeByStart
        rw [List.filter_cons_of_neg (by simp [ha])]
        rw [List.filter_eq_self]
        intro x hx
        have := List.countP_eq_zero.mp h0 x hx
        simpa using this
      rw [hfil, hsel]
      exact List.perm_append_singleton a tl
    · have hsel : sel ∈ tl := by
        rcases List.mem_cons.mp hmem with h | h
        · exact absurd (h ▸ rfl) ha
        · exact h
      have hcount' : tl.countP (fun s => decide (s.startTime = sel.startTime)) = 1 := by
        rw [List.countP_cons] at hcount
        simpa [ha] using hcount
      have hfil : removeByStart sel.startTime (a :: tl) =
          a :: removeByStart sel.startTime tl := by
        unfold removeByStart
        rw [List.filter_cons_of_pos (by simp [ha])]
      rw [hfil]
      exact (ih hsel hcount').cons a

end Curalis

namespace Curalis

/-- Claim C1: in every booking attempt the selected slot is first removed
from the visible day list and the month-grid cache, and on every failure
path (`success:false` envelope or thrown error) the removed slot is
restored to both, so the availability state (day list and each month-grid
entry, as multisets of slots) equals its pre-booking state. -/
theorem c1_confirmBook_rollback :
    ∀ (doctorId : String) (st : BookState) (sel : Slot) (dateISO : String)
      (outcome : BookOutcome) (daySlots : List Slot),
      outcome ≠ BookOutcome.success →
      sel ∈ st.slots →
      st.slots.countP (fun s => decide (s.startTime = sel.startTime)) = 1 →
      st.monthSlots dateISO = some daySlots →
      sel ∈ daySlots →
      daySlots.countP (fun s => decide (s.startTime = sel.startTime)) = 1 →
      (sel ∉ (optimisticRemove st sel dateISO).slots ∧
        ∀ l, (optimisticRemove st sel dateISO).monthSlots dateISO = some l → sel ∉ l) ∧
      (confirmBook (some doctorId) st sel dateISO outcome).slots.Perm st.slots ∧
      (∀ k, optPerm ((confirmBook (some doctorId) st sel dateISO outcome).monthSlots k)
          (st.monthSlots k)) := by
  intro doctorId st sel dateISO outcome daySlots hout hmem hcount hmonth hdmem hdcount
  refine ⟨⟨?_, ?_⟩, ?_, ?_⟩
  · simp [optimisticRemove, removeByStart, List.mem_filter]
  · intro l hl
    simp only [optimisticRemove, if_pos rfl, hmonth] at hl
    by_cases he : (removeByStart sel.startTime daySlots).isEmpty
    · simp [he] at hl
    · simp [he] at hl
      subst hl
      simp [removeByStart, List.mem_filter]
  · have : (confirmBook (some doctorId) st sel dateISO outcome).slots =
        removeByStart sel.startTime st.slots ++ [sel] := by
      cases outcome with
      | success => exact absurd rfl hout
      | envelopeFail => rfl
      | throwFail => rfl
    rw [this]
    exact removeByStart_append_perm st.slots sel hmem hcount
  · intro k
    have hms : (confirmBook (some doctorId) st sel dateISO outcome).monthSlots =
        (rollbackRestore (optimisticRemove st sel dateISO) sel dateISO).monthSlots := by
      cases outcome with
      | success => exact absurd rfl hout
      | envelopeFail => rfl
      | throwFail => rfl
    rw [hms]
    by_cases hk : k = dateISO
    · subst hk
      simp only [rollbackRestore, optimisticRemove, if_pos rfl, hmonth]
      by_cases he : (removeByStart sel.startTime daySlots).isEmpty
      · have hnil : removeByStart sel.startTime daySlots = [] := List.isEmpty_iff.mp he
        have hall : ∀ x ∈ daySlots, x.startTime = sel.startTime := by
          intro x hx
          have := List.filter_eq_nil_iff.mp hnil x hx
          simpa using this
        have hlen : daySlots.length = 1 := by
          have hcl := List.countP_eq_length.mpr fun a ha => decide_eq_true (hall a ha)
          omega
        obtain ⟨x, hx⟩ := List.length_eq_one.mp hlen
        have hds : daySlots = [sel] := by
          rw [hx] at hdmem ⊢
          simp at hdmem
          rw [hdmem]
        rw [hds] at hnil ⊢
        simp [hnil, optPerm]
      · simp [he, optPerm]
        exact removeByStart_append_perm daySlots sel hdmem hdcount
    · simp [rollbackRestore, optimisticRemove, hk, optPerm_refl]
  
/-- Concrete instance of `c1_confirmBook_rollback`: one 30-minute slot on
2024-06-01, booking rejected by the server. -/
theorem c1_confirmBook_rollback_witness :
    (confirmBook (some "D1") ⟨[⟨0, 30⟩], fun k => if k = "2024-06-01" then some [⟨0, 30⟩] else none⟩
        ⟨0, 30⟩ "2024-06-01" BookOutcome.envelopeFail).slots.Perm [⟨0, 30⟩] := by
  have h := c1_confirmBook_rollback "D1"
      ⟨[⟨0, 30⟩], fun k => if k = "2024-06-01" then some [⟨0, 30⟩] else none⟩
      ⟨0, 30⟩ "2024-06-01" BookOutcome.envelopeFail [⟨0, 30⟩]
      (by decide) (by decide) (by decide) (by simp) (by decide) (by decide)
  exact h.2.1

end Curalis

namespace Curalis

/-! ## Exam status toggle (`ExamDetailScreen.tsx` / `realApi.ts`)

`ApiService.updateExamStatus` wraps the PATCH request in its own
try/catch and returns a `{success:false}` envelope on every failure, so it
never rejects; `handleToggleStatus` awaits it inside a try/catch whose
catch block (revert + alert) therefore only runs on a thrown error. -/

inductive ExamStatus where
  | pending
  | uploaded
  | completed
  deriving DecidableEq, Repr

/-- Outcome of the PATCH `/exams/assigned/:examId` HTTP request.
`http2xx envelopeSuccess hasData` is a 2xx reply carrying
`{success, data?}`; `httpError` is a non-2xx reply (axios rejects);
`networkThrow` is a network-level failure (axios rejects). -/
inductive PatchOutcome where
  | http2xx (envelopeSuccess : Bool) (hasData : Bool)
  | httpError
  | networkThrow
  deriving DecidableEq, Repr

structure ApiResp where
  success : Bool
  deriving DecidableEq, Repr

/-- `ApiService.updateExamStatus` (realApi.ts lines 500-547) as a function
from the request outcome to its result; `Except.error` would model a
rejected promise, which this method never produces. -/
def updateExamStatus (o : PatchOutcome) : Except String ApiResp :=
  match o with
  | .http2xx true true => .ok { success := true }
  | .http2xx _ _ => .ok { success := false }
  | .httpError => .ok { success := false }
  | .networkThrow => .ok { success := false }

/-- `handleToggleStatus` (ExamDetailScreen.tsx lines 48-65).  Returns the
optimistically displayed status, the displayed status after the call
settles, and whether the error alert was shown. -/
def handleToggleStatus (exam : Option ExamStatus) (o : PatchOutcome) :
    Option ExamStatus × Option ExamStatus × Bool :=
  match exam with
  | none => (none, none, false)
  | some status =>
      let newStatus :=
        if status = ExamStatus.completed then ExamStatus.pending else ExamStatus.completed
      match updateExamStatus o with
      | .ok _ => (some newStatus, some newStatus, false)
      | .error _ => (some newStatus, some status, true)

/-- Claim C7 fails on the code: the optimistic update does happen, but on a
failed server call (here: a network-level failure while the exam shows
`pending`) the displayed status stays at the toggled value and no alert is
shown, because `updateExamStatus` swallows the rejection into a
`{success:false}` envelope that `handleToggleStatus` ignores. -/
theorem c7_exam_toggle_rollback_dead :
    (∀ o : PatchOutcome, ∃ r, updateExamStatus o = Except.ok r) ∧
    (∀ (st : ExamStatus) (o : PatchOutcome),
        handleToggleStatus (some st) o =
          (some (if st = ExamStatus.completed then ExamStatus.pending else ExamStatus.completed),
           some (if st = ExamStatus.completed then ExamStatus.pending else ExamStatus.completed),
           false)) ∧
    handleToggleStatus (some ExamStatus.pending) PatchOutcome.networkThrow =
      (some ExamStatus.completed, some ExamStatus.completed, false) := by
  refine ⟨?_, ?_, by decide⟩
  · intro o
    cases o with
    | http2xx es hd => cases es <;> cases hd <;> exact ⟨_, rfl⟩
    | httpError => exact ⟨_, rfl⟩
    | networkThrow => exact ⟨_, rfl⟩
  · intro st o
    cases o with
    | http2xx es hd => cases es <;> cases hd <;> rfl
    | httpError => rfl
    | networkThrow => rfl

end Curalis

namespace Curalis

/-! ## Consent document generation (`pdfGenerator.ts`)

`generateSignatureSVG` and `generateConsentHTML` are string templates.
JS numbers are printed with `jsNat`; the locale-dependent
`toLocaleDateString`/`toLocaleTimeString` results are the `formattedDate`/
`formattedTime` parameters, and `new Date(timestamp).getTime()` is the
`timestampMs` parameter (both are platform APIs, external to this code). -/

/-- Fuel-driven base-`b` little-endian digit expansion (model of the
digit loop behind JS `Number#toString`). -/
def toBaseAux (b : Nat) : Nat → Nat → List Nat
  | 0, _ => []
  | fuel + 1, n => if n = 0 then [] else n % b :: toBaseAux b fuel (n / b)

/-- Model of JS `${n}` for a natural number: decimal digits. -/
def jsNat (n : Nat) : String :=
  if n = 0 then "0" else String.mk ((toBaseAux 10 n n).reverse.map Nat.digitChar)

/-- Model of JS `n.toString(16)`: lowercase hex digits. -/
def jsHex (n : Nat) : String :=
  if n = 0 then "0" else String.mk ((toBaseAux 16 n n).reverse.map Nat.digitChar)

structure Dimensions where
  width : Nat
  height : Nat
  deriving DecidableEq, Repr

structure SignatureData where
  paths : List String
  timestamp : String
  dimensions : Dimensions
  deriving DecidableEq, Repr

structure PatientInfo where
  name : String
  dateOfBirth : String
  patientId : String
  deriving DecidableEq, Repr

/-- `generateSignatureSVG` (pdfGenerator.ts lines 47-86).  `paths` is
already a list, so the `Array.isArray` guard is the identity. -/
def generateSignatureSVG (data : SignatureData) : String :=
  let combinedPathData := String.intercalate " " data.paths
  let w := jsNat data.dimensions.width
  let h := jsNat data.dimensions.height
  if combinedPathData = "" then
    "\n      <div style=\"width:" ++ w ++ "px; height:" ++ h ++
      "px; border:1px dashed #ccc; text-align:center; line-height:" ++ h ++
      "px; color:#ccc;\">\n        Signature not provided\n      </div>\n    "
  else
    let viewBox := "0 0 " ++ w ++ " " ++ h
    "\n    <svg \n      " ++ ("width=\"" ++ w ++ "\"") ++ " \n      " ++
      ("height=\"" ++ h ++ "\"") ++ " \n      " ++
      ("viewBox=\"" ++ viewBox ++ "\"") ++
      " \n      xmlns=\"http://www.w3.org/2000/svg\"\n      style=\"border: 1px solid #E5E7EB; background-color: white;\"\n    >\n      <path \n        " ++
      ("d=\"" ++ combinedPathData ++ "\"") ++
      " \n        stroke=\"#2563EB\" \n        stroke-width=\"3\" \n        fill=\"none\" \n        stroke-linecap=\"round\" \n        stroke-linejoin=\"round\"\n      />\n    </svg>\n  "

/-- `generateSignatureId` (pdfGenerator.ts lines 316-320). -/
def generateSignatureId (data : SignatureData) (timestampMs : Nat) : String :=
  let pathsHash := jsHex (String.join data.paths).length
  let ts := jsHex timestampMs
  ("SIG-" ++ pathsHash ++ "-" ++ ts).map Char.toUpper

/-- Template text of `generateConsentHTML` before `${signatureSVG}`. -/
def consentHeadHTML (pi : PatientInfo) (formattedDate : String) : String :=
    "\n    <!DOCTYPE html>\n    <html>\n    <head>\n      <meta charset=\"UTF-8\">\n      <meta name=\"viewport\" content=\"width=device-width, initial-scale=1.0\">\n      <title>Digital Consent Agreement</title>\n      <style>\n        body \x7b\n          font-family: -apple-system, BlinkMacSystemFont, \x27Segoe UI\x27, Roboto, sans-serif;\n          line-height: 1.6;\n          color: #1F2937;\n          max-width: 800px;\n          margin: 0 auto;\n          padding: 40px 20px;\n          background-color: #F8FAFC;\n        \x7d\n        .header \x7b\n          text-align: center;\n          margin-bottom: 40px;\n          padding-bottom: 20px;\n          border-bottom: 2px solid #E5E7EB;\n        \x7d\n        .logo \x7b\n          font-size: 24px;\n          font-weight: bold;\n          color: #2563EB;\n          margin-bottom: 10px;\n        \x7d\n        .title \x7b\n          font-size: 28px;\n          font-weight: bold;\n          color: #1F2937;\n          margin-bottom: 10px;\n        \x7d\n        .subtitle \x7b\n          font-size: 16px;\n          color: #6B7280;\n        \x7d\n        .patient-info \x7b\n          background-color: white;\n          padding: 20px;\n          border-radius: 12px;\n          margin-bottom: 30px;\n          border: 1px solid #E5E7EB;\n        \x7d\n        .patient-info h3 \x7b\n          margin: 0 0 15px 0;\n          color: #2563EB;\n          font-size: 18px;\n        \x7d\n        .info-grid \x7b\n          display: grid;\n          grid-template-columns: 1fr 1fr;\n          gap: 15px;\n        \x7d\n        .info-item \x7b\n          display: flex;\n          flex-direction: column;\n        \x7d\n        .info-label \x7b\n          font-size: 12px;\n          color: #6B7280;\n          text-transform: uppercase;\n          letter-spacing: 0.5px;\n          margin-bottom: 5px;\n        \x7d\n        .info-value \x7b\n          font-size: 16px;\n          font-weight: 600;\n          color: #1F2937;\n        \x7d\n        .consent-text \x7b\n          background-color: white;\n          padding: 30px;\n          border-radius: 12px;\n          margin-bottom: 30px;\n          border: 1px solid #E5E7EB;\n        \x7d\n        .consent-text h3 \x7b\n          margin: 0 0 20px 0;\n          color: #1F2937;\n          font-size: 20px;\n        \x7d\n        .consent-text p \x7b\n          margin: 0 0 15px 0;\n          font-size: 14px;\n          color: #374151;\n        \x7d\n        .signature-section \x7b\n          background-color: white;\n          padding: 30px;\n          border-radius: 12px;\n          margin-bottom: 30px;\n          border: 1px solid #E5E7EB;\n        \x7d\n        .signature-section h3 \x7b\n          margin: 0 0 20px 0;\n          color: #1F2937;\n          font-size: 20px;\n        \x7d\n        .signature-container \x7b\n          display: flex;\n          justify-content: center;\n          margin: 20px 0;\n        \x7d\n        .signature-info \x7b\n          margin-top: 20px;\n          padding-top: 20px;\n          border-top: 1px solid #E5E7EB;\n        \x7d\n        .signature-info p \x7b\n          margin: 5px 0;\n          font-size: 14px;\n          color: #6B7280;\n        \x7d\n        .footer \x7b\n          text-align: center;\n          margin-top: 40px;\n          padding-top: 20px;\n          border-top: 2px solid #E5E7EB;\n          color: #6B7280;\n          font-size: 12px;\n        \x7d\n        @media print \x7b\n          body \x7b\n            background-color: white;\n            padding: 20px;\n          \x7d\n          .header, .patient-info, .consent-text, .signature-section \x7b\n            border: 1px solid #000;\n            margin-bottom: 20px;\n          \x7d\n        \x7d\n      </style>\n    </head>\n    <body>\n      <div class=\"header\">\n        <div class=\"logo\">FollowNest</div>\n        <h1 class=\"title\">Digital Consent Agreement</h1>\n        <p class=\"subtitle\">Medical Data Processing Consent</p>\n      </div>\n      \n      <div class=\"patient-info\">\n        <h3>Patient Information</h3>\n        <div class=\"info-grid\">\n          <div class=\"info-item\">\n            <span class=\"info-label\">Patient Name</span>\n            <span class=\"info-value\">" ++
    pi.name ++
    "</span>\n          </div>\n          <div class=\"info-item\">\n            <span class=\"info-label\">Date of Birth</span>\n            <span class=\"info-value\">" ++
    pi.dateOfBirth ++
    "</span>\n          </div>\n          <div class=\"info-item\">\n            <span class=\"info-label\">Patient ID</span>\n            <span class=\"info-value\">" ++
    pi.patientId ++
    "</span>\n          </div>\n          <div class=\"info-item\">\n            <span class=\"info-label\">Consent Date</span>\n            <span class=\"info-value\">" ++
    formattedDate ++
    "</span>\n          </div>\n        </div>\n      </div>\n      \n      <div class=\"consent-text\">\n        <h3>Consent Agreement</h3>\n        <p>\n          By signing this document, I, <strong>" ++
    pi.name ++
    "</strong>, hereby provide my informed consent \n          for the collection, processing, and storage of my medical data for the purposes of my healthcare \n          treatment and follow-up care.\n        </p>\n        <p>\n          I understand and agree to the following:\n        </p>\n        <ul>\n          <li>My medical data will be collected and processed for healthcare purposes</li>\n          <li>My data will be stored securely in accordance with applicable privacy laws</li>\n          <li>I have the right to access, correct, or delete my data as permitted by law</li>\n          <li>My data may be shared with healthcare providers involved in my care</li>\n          <li>I can withdraw my consent at any time by contacting the healthcare provider</li>\n        </ul>\n        <p>\n          I acknowledge that I have read and understood this consent agreement and voluntarily provide \n          my consent for the processing of my medical data.\n        </p>\n      </div>\n      \n      <div class=\"signature-section\">\n        <h3>Digital Signature</h3>\n        <div class=\"signature-container\">\n          "

/-- Template text of `generateConsentHTML` after `${signatureSVG}`. -/
def consentTailHTML (pi : PatientInfo) (formattedDate formattedTime : String)
    (data : SignatureData) (timestampMs : Nat) : String :=
  "\n        </div>\n        <div class=\"signature-info\">\n          <p><strong>Signed by:</strong> " ++
    pi.name ++
    "</p>\n          <p><strong>Date:</strong> " ++
    formattedDate ++
    "</p>\n          <p><strong>Time:</strong> " ++
    formattedTime ++
    "</p>\n          <p><strong>Digital Signature ID:</strong> " ++
    (generateSignatureId data timestampMs) ++
    "</p>\n        </div>\n      </div>\n      \n      <div class=\"footer\">\n        <p>This document was generated electronically by FollowNest on " ++
    formattedDate ++
    " at " ++
    formattedTime ++
    "</p>\n        <p>Document ID: CONSENT-" ++
    pi.patientId ++
    "-" ++
    (jsNat timestampMs) ++
    "</p>\n      </div>\n    </body>\n    </html>\n  "

/-- `generateConsentHTML` (pdfGenerator.ts lines 88-313). -/
def generateConsentHTML (signatureSVG : String) (pi : PatientInfo)
    (formattedDate formattedTime : String) (data : SignatureData)
    (timestampMs : Nat) : String :=
  consentHeadHTML pi formattedDate ++ signatureSVG ++
    consentTailHTML pi formattedDate formattedTime data timestampMs

end Curalis


namespace Curalis

/-- `pat` occurs as a contiguous substring of `hay`. -/
def strContains (hay pat : String) : Prop :=
  ∃ pre post : String, hay = pre ++ pat ++ post

theorem strData_ext {a b : String} (h : a.data = b.data) : a = b := by
  cases a
  cases b
  exact congrArg String.mk h

theorem strContains_iff_middle (hay pat : String) :
    strContains hay pat ↔ pat.data <:+: hay.data := by
  constructor
  · rintro ⟨pre, post, rfl⟩
    exact ⟨pre.data, post.data, by simp [String.data_append]⟩
  · rintro ⟨s, t, hst⟩
    refine ⟨String.mk s, String.mk t, strData_ext ?_⟩
    simp [String.data_append, ← hst]

theorem strContains_suffix (a p : String) : strContains (a ++ p) p := by
  refine ⟨a, "", strData_ext ?_⟩
  simp [String.data_append]

theorem strContains_appendL {h1 : String} {p : String} (h2 : String)
    (hc : strContains h1 p) : strContains (h1 ++ h2) p := by
  obtain ⟨pre, post, rfl⟩ := hc
  refine ⟨pre, post ++ h2, strData_ext ?_⟩
  simp [String.data_append]

theorem strContains_appendR (h1 : String) {h2 : String} {p : String}
    (hc : strContains h2 p) : strContains (h1 ++ h2) p := by
  obtain ⟨pre, post, rfl⟩ := hc
  refine ⟨h1 ++ pre, post, strData_ext ?_⟩
  simp [String.data_append]

theorem strContains_trans {h a p : String} (h1 : strContains h a)
    (h2 : strContains a p) : strContains h p := by
  obtain ⟨ph, sh, rfl⟩ := h1
  obtain ⟨pa, sa, rfl⟩ := h2
  refine ⟨ph ++ pa, sa ++ sh, strData_ext ?_⟩
  simp [String.data_append]

end Curalis

namespace Curalis

/-- Claim C6 fails as stated for the non-empty path list `[""]`: its
space-join is empty, so `generateSignatureSVG` emits the
"Signature not provided" placeholder and the document carries no `d`
attribute at all. -/
theorem c6_counterexample_blank_path :
    ¬ strContains
        (generateSignatureSVG ⟨[""], "2024-01-01T00:00:00", ⟨300, 150⟩⟩)
        ("d=\"" ++ String.intercalate " " [""] ++ "\"") := by
  intro h
  have hin := (strContains_iff_middle _ _).mp h
  revert hin
  set_option maxRecDepth 4000 in
  decide

/-- Claim C6 (amended): for every signature whose space-joined path string
is non-empty, the generated SVG carries `width="<w>"`, `height="<h>"`,
`viewBox="0 0 <w> <h>"` and a `<path>` whose `d` attribute is exactly
`paths.join(' ')`; the consent HTML embeds that SVG verbatim, hence
contains the same attributes. -/
theorem c6_consent_svg_roundtrip :
    ∀ (data : SignatureData) (pi : PatientInfo) (fdate ftime : String) (tsMs : Nat),
      String.intercalate " " data.paths ≠ "" →
      (strContains (generateSignatureSVG data)
          ("d=\"" ++ String.intercalate " " data.paths ++ "\"") ∧
        strContains (generateSignatureSVG data)
          ("viewBox=\"" ++ ("0 0 " ++ jsNat data.dimensions.width ++ " " ++
            jsNat data.dimensions.height) ++ "\"") ∧
        strContains (generateSignatureSVG data)
          ("width=\"" ++ jsNat data.dimensions.width ++ "\"") ∧
        strContains (generateSignatureSVG data)
          ("height=\"" ++ jsNat data.dimensions.height ++ "\"")) ∧
      strContains (generateConsentHTML (generateSignatureSVG data) pi fdate ftime data tsMs)
        (generateSignatureSVG data) ∧
      (∀ pat, strContains (generateSignatureSVG data) pat →
        strContains (generateConsentHTML (generateSignatureSVG data) pi fdate ftime data tsMs)
          pat) := by
  intro data pi fdate ftime tsMs hne
  have hhtml : strContains
      (generateConsentHTML (generateSignatureSVG data) pi fdate ftime data tsMs)
      (generateSignatureSVG data) :=
    ⟨consentHeadHTML pi fdate, consentTailHTML pi fdate ftime data tsMs, rfl⟩
  refine ⟨?_, hhtml, fun pat hp => strContains_trans hhtml hp⟩
  unfold generateSignatureSVG
  simp only [if_neg hne]
  refine ⟨?_, ?_, ?_, ?_⟩
  · exact strContains_appendL _ (strContains_suffix _ _)
  · exact strContains_appendL _ (strContains_appendL _ (strContains_appendL _
      (strContains_suffix _ _)))
  · exact strContains_appendL _ (strContains_appendL _ (strContains_appendL _
      (strContains_appendL _ (strContains_appendL _ (strContains_appendL _
        (strContains_appendL _ (strContains_suffix _ _)))))))
  · exact strContains_appendL _ (strContains_appendL _ (strContains_appendL _
      (strContains_appendL _ (strContains_appendL _ (strContains_suffix _ _)))))

/-- Concrete instance of `c6_consent_svg_roundtrip` at the claim's input:
paths `["M10,10 L20,20"]` with 300x150 dimensions. -/
theorem c6_consent_svg_roundtrip_witness :
    strContains (generateSignatureSVG ⟨["M10,10 L20,20"], "t0", ⟨300, 150⟩⟩)
        "d=\"M10,10 L20,20\"" ∧
    strContains (generateSignatureSVG ⟨["M10,10 L20,20"], "t0", ⟨300, 150⟩⟩)
        "viewBox=\"0 0 300 150\"" := by
  have h := c6_consent_svg_roundtrip ⟨["M10,10 L20,20"], "t0", ⟨300, 150⟩⟩
      ⟨"Jane", "1990-01-01", "P1"⟩ "June 1, 2024" "10:00 AM" 0 (by decide)
  constructor
  · have hd := h.1.1
    rwa [(by decide :
      ("d=\"" ++ String.intercalate " " ["M10,10 L20,20"] ++ "\"") = "d=\"M10,10 L20,20\"")]
      at hd
  · have hv := h.1.2.1
    rwa [(by decide :
      ("viewBox=\"" ++ ("0 0 " ++ jsNat 300 ++ " " ++ jsNat 150) ++ "\"") =
        "viewBox=\"0 0 300 150\"")] at hv

end Curalis

namespace Curalis

/-! ## Duplicate-speech guard (`speakViaPlayer` / `speakToAvatar`)

Both functions normalise the text, skip it as a duplicate when it equals
the last spoken text and less than 2000 ms have elapsed, and otherwise
record it and dispatch a speak action. -/

structure SpeakState where
  lastSpokenText : String
  lastSpeakAt : Int
  deriving DecidableEq, Repr

/-- Model of JS `String#trim`: strip whitespace from both ends. -/
def jsTrim (s : String) : String :=
  String.mk (((s.data.dropWhile Char.isWhitespace).reverse.dropWhile
    Char.isWhitespace).reverse)

inductive SpeakAction where
  | playerPostMessage (text : String)
  | restTask (text : String)
  | backendTask (text : String)
  | windowSpeak (text : String)
  deriving DecidableEq, Repr

/-- `speakViaPlayer` (lines 228-247): returns the updated refs, the
returned boolean, and the dispatched speak actions.  `webSdkPresent`
models `webSdkRef.current` being non-null. -/
def speakViaPlayer (st : SpeakState) (webSdkPresent : Bool) (text : String)
    (now : Int) : SpeakState × Bool × List SpeakAction :=
  let normalized := jsTrim text
  if normalized = "" then (st, false, [])
  else if normalized = st.lastSpokenText ∧ now - st.lastSpeakAt < 2000 then
    (st, true, [])
  else
    let st1 : SpeakState := ⟨normalized, now⟩
    if webSdkPresent then (st1, true, [SpeakAction.playerPostMessage normalized])
    else (st1, false, [])

/-- Outcome of the direct `streaming.task` REST call and its backend
fallback in `speakToAvatar`. -/
inductive RestOutcome where
  | ok
  | errBackendOk
  | errBackendErr
  | throwEx
  deriving DecidableEq, Repr

/-- `speakToAvatar` (lines 249-298).  The REST attempt runs only when both
`heygenToken` and the avatar session id are present; on failure it falls
back to the backend proxy, then to the in-player postMessage, then to
`window.speak`. -/
def speakToAvatar (st : SpeakState) (heygenToken : Option String)
    (sessionId : Option String) (webSdkPresent : Bool) (rest : RestOutcome)
    (text : String) (now : Int) : SpeakState × Bool × List SpeakAction :=
  let normalized := jsTrim text
  if normalized = "" then (st, false, [])
  else if normalized = st.lastSpokenText ∧ now - st.lastSpeakAt < 2000 then
    (st, true, [])
  else
    let st1 : SpeakState := ⟨normalized, now⟩
    match heygenToken, sessionId with
    | some _, some _ =>
        match rest with
        | .ok => (st1, true, [SpeakAction.restTask normalized])
        | .errBackendOk =>
            (st1, true, [SpeakAction.restTask normalized, SpeakAction.backendTask normalized])
        | .errBackendErr =>
            if webSdkPresent then
              (st1, true, [SpeakAction.restTask normalized, SpeakAction.backendTask normalized,
                SpeakAction.playerPostMessage normalized])
            else
              (st1, false, [SpeakAction.restTask normalized, SpeakAction.backendTask normalized])
        | .throwEx =>
            if webSdkPresent then
              (st1, true, [SpeakAction.restTask normalized,
                SpeakAction.playerPostMessage normalized])
            else (st1, false, [SpeakAction.restTask normalized])
    | _, _ =>
        if webSdkPresent then (st1, true, [SpeakAction.playerPostMessage normalized])
        else (st1, false, [])

/-- Claim C5: a second call to the speak path with the same normalised
non-empty text strictly less than 2000 ms after a (dispatching) first call
performs no speak dispatch and returns `true` as a skipped duplicate, so
the pair results in exactly one spoken/playback action. -/
theorem c5_duplicate_speech_suppressed :
    ∀ (st : SpeakState) (webSdk : Bool) (text : String) (n1 n2 : Int),
      jsTrim text ≠ "" →
      ¬ (jsTrim text = st.lastSpokenText ∧ n1 - st.lastSpeakAt < 2000) →
      n2 - n1 < 2000 →
      (speakViaPlayer (speakViaPlayer st webSdk text n1).1 webSdk text n2 =
          ((speakViaPlayer st webSdk text n1).1, true, []) ∧
        (webSdk = true →
          (speakViaPlayer st webSdk text n1).2.2 ++
              (speakViaPlayer (speakViaPlayer st webSdk text n1).1 webSdk text n2).2.2 =
            [SpeakAction.playerPostMessage (jsTrim text)])) ∧
      (∀ (tok sid : Option String) (rest : RestOutcome),
        speakToAvatar (speakToAvatar st tok sid webSdk rest text n1).1 tok sid webSdk rest text n2 =
          ((speakToAvatar st tok sid webSdk rest text n1).1, true, []) ∧
        (∀ t i, tok = some t → sid = some i → rest = RestOutcome.ok →
          (speakToAvatar st tok sid webSdk rest text n1).2.2 ++
              (speakToAvatar (speakToAvatar st tok sid webSdk rest text n1).1
                tok sid webSdk rest text n2).2.2 =
            [SpeakAction.restTask (jsTrim text)])) := by
  intro st webSdk text n1 n2 hne hnd h2
  have hfst : (speakViaPlayer st webSdk text n1).1 = ⟨jsTrim text, n1⟩ := by
    simp only [speakViaPlayer, if_neg hne, if_neg hnd]
    cases webSdk <;> simp
  have hskip : speakViaPlayer (⟨jsTrim text, n1⟩ : SpeakState) webSdk text n2 =
      (⟨jsTrim text, n1⟩, true, []) := by
    simp [speakViaPlayer, hne, h2]
  constructor
  · constructor
    · rw [hfst, hskip]
    · intro hw
      subst hw
      rw [hfst, hskip]
      simp only [speakViaPlayer, if_neg hne, if_neg hnd, if_pos rfl]
      simp
  · intro tok sid rest
    have hafst : (speakToAvatar st tok sid webSdk rest text n1).1 = ⟨jsTrim text, n1⟩ := by
      simp only [speakToAvatar, if_neg hne, if_neg hnd]
      cases tok <;> cases sid <;> cases rest <;> cases webSdk <;> simp
    have haskip : speakToAvatar (⟨jsTrim text, n1⟩ : SpeakState) tok sid webSdk rest text n2 =
        (⟨jsTrim text, n1⟩, true, []) := by
      simp [speakToAvatar, hne, h2]
    constructor
    · rw [hafst, haskip]
    · intro t i ht hi hr
      subst ht hi hr
      rw [hafst, haskip]
      simp only [speakToAvatar, if_neg hne, if_neg hnd]
      simp

end Curalis

namespace Curalis

/-- Concrete instance of `c5_duplicate_speech_suppressed`. -/
theorem c5_duplicate_speech_suppressed_witness :
    speakViaPlayer (speakViaPlayer ⟨"", 0⟩ true "hello" 10000).1 true "hello" 11000 =
      ((speakViaPlayer ⟨"", 0⟩ true "hello" 10000).1, true, []) := by
  exact (c5_duplicate_speech_suppressed ⟨"", 0⟩ true "hello" 10000 11000
    (by decide) (by decide) (by decide)).1.1

/-! ## Avatar-attachment wait (`startInterviewFlow`, lines 464-513)

The poll loop sleeps 120 ms per iteration while neither readiness nor a
session id has arrived and less than 45000 ms have elapsed.  `obs k` is
the value of `avatarReadyRef.current && avatarSessionIdRef.current !== null`
at the `k`-th check (model time advances 120 ms per iteration). -/

def pollFrom (obs : Nat → Bool) (k : Nat) : Bool × Nat :=
  if ¬ obs k ∧ 120 * k < 45000 then pollFrom obs (k + 1) else (obs k, k)
termination_by 45000 - 120 * k
decreasing_by omega

structure FlowState where
  heygenEnabled : Bool
  heygenToken : Option String
  interviewStarted : Bool
  preparing : Bool
  deriving DecidableEq, Repr

/-- The tail of `startInterviewFlow` after a successful token fetch: wait
for readiness, and on expiry disable the avatar (`heygenEnabledRef=false`,
token cleared) but still start the interview. -/
def startFlowWait (s : FlowState) (obs : Nat → Bool) : FlowState :=
  let r := pollFrom obs 0
  if !r.1 then
    { s with heygenEnabled := false, heygenToken := none,
             interviewStarted := true, preparing := false }
  else
    { s with interviewStarted := true, preparing := false }

theorem pollFrom_bounded (obs : Nat → Bool) :
    ∀ m k, 45000 - 120 * k ≤ 120 * m → k ≤ 375 →
      (pollFrom obs k).2 ≤ 375 ∧ (pollFrom obs k).1 = obs (pollFrom obs k).2 := by
  intro m
  induction m with
  | zero =>
    intro k hm hk
    rw [pollFrom]
    have hcond : ¬ (¬ obs k ∧ 120 * k < 45000) := by
      rintro ⟨-, hlt⟩
      omega
    rw [if_neg hcond]
    exact ⟨hk, rfl⟩
  | succ m ih =>
    intro k hm hk
    rw [pollFrom]
    by_cases hcond : ¬ obs k ∧ 120 * k < 45000
    · rw [if_pos hcond]
      exact ih (k + 1) (by omega) (by omega)
    · rw [if_neg hcond]
      exact ⟨hk, rfl⟩

/-- Claim C8: the avatar-readiness poll terminates within the 45000 ms
budget (at most 375 iterations of 120 ms), and when it expires without
readiness the flow disables the avatar, clears the token, and still starts
the interview. -/
theorem c8_avatar_wait_bounded :
    ∀ (obs : Nat → Bool) (s : FlowState),
      (pollFrom obs 0).2 ≤ 375 ∧
      120 * (pollFrom obs 0).2 ≤ 45000 ∧
      ((∀ j, obs j = false) → (pollFrom obs 0).1 = false) ∧
      ((pollFrom obs 0).1 = false →
        (startFlowWait s obs).heygenEnabled = false ∧
        (startFlowWait s obs).heygenToken = none ∧
        (startFlowWait s obs).interviewStarted = true) := by
  intro obs s
  have h := pollFrom_bounded obs 375 0 (by omega) (by omega)
  refine ⟨h.1, by omega, ?_, ?_⟩
  · intro hall
    rw [h.2, hall]
  · intro hf
    simp [startFlowWait, hf]

/-- Concrete instance of `c8_avatar_wait_bounded`: an avatar that never
becomes ready. -/
theorem c8_avatar_wait_bounded_witness :
    (startFlowWait ⟨true, some "tok", false, true⟩ (fun _ => false)).heygenEnabled = false ∧
    (startFlowWait ⟨true, some "tok", false, true⟩ (fun _ => false)).interviewStarted = true := by
  have h := c8_avatar_wait_bounded (fun _ => false) ⟨true, some "tok", false, true⟩
  have hf := h.2.2.1 (fun _ => rfl)
  exact ⟨(h.2.2.2 hf).1, (h.2.2.2 hf).2.2⟩

end Curalis

namespace Curalis

/-! ## Local ISO date handling (`realApi.ts` lines 26-43)

A JS `Date` is modelled through its local components; `formatLocalISO`
prints them zero-padded and `parseAsLocal` turns the
`string | Date | undefined` argument back into a `Date`.  `new Date(s)`
on a timezone-less `YYYY-MM-DDTHH:mm:ss` string yields local time per
the ECMAScript date-time string format; strings of any other shape are
modelled as `Invalid Date`. -/

structure DateRec where
  year : Nat
  month : Nat
  day : Nat
  hours : Nat
  minutes : Nat
  seconds : Nat
  deriving DecidableEq, Repr

/-- A JS `Date` object: valid local components, or `Invalid Date`. -/
inductive DateObj where
  | valid (r : DateRec)
  | invalid
  deriving DecidableEq, Repr

/-- The `string | Date | undefined` argument of `parseAsLocal`. -/
inductive JSValue where
  | undef
  | str (s : String)
  | date (d : DateObj)
  deriving DecidableEq, Repr

/-- `String(n).padStart(2, '0')`. -/
def pad2Chars (n : Nat) : List Char :=
  if (jsNat n).data.length < 2 then '0' :: (jsNat n).data else (jsNat n).data

/-- `formatLocalISO` (lines 26-34): `${year}-${month}-${day}T${hours}:${minutes}:${seconds}`
with all but the year zero-padded to two digits. -/
def formatLocalISO (d : DateRec) : String :=
  String.mk ((jsNat d.year).data ++ '-' :: (pad2Chars d.month ++ '-' :: (pad2Chars d.day ++
    'T' :: (pad2Chars d.hours ++ ':' :: (pad2Chars d.minutes ++ ':' :: pad2Chars d.seconds)))))

/-- Numeric value of a most-significant-first digit-character list. -/
def parseDigitsVal (cs : List Char) : Nat :=
  cs.foldl (fun a c => a * 10 + (c.toNat - 48)) 0

def parse2 : List Char → Option (Nat × List Char)
  | c1 :: c2 :: rest =>
      if c1.isDigit ∧ c2.isDigit then some (parseDigitsVal [c1, c2], rest) else none
  | _ => none

def expectChar (c : Char) : List Char → Option (List Char)
  | x :: rest => if x = c then some rest else none
  | [] => none

/-- Parse of the timezone-less ECMAScript date-time string
`YYYY-MM-DDTHH:mm:ss` (the shape `formatLocalISO` emits), with the
grammar's range checks; anything else is `Invalid Date` (`none`). -/
def jsParseLocalDateTime (cs : List Char) : Option DateRec := do
  let sp := cs.span Char.isDigit
  if sp.1.length = 4 then
    let r1 ← expectChar '-' sp.2
    let p1 ← parse2 r1
    let r3 ← expectChar '-' p1.2
    let p2 ← parse2 r3
    let r5 ← expectChar 'T' p2.2
    let p3 ← parse2 r5
    let r7 ← expectChar ':' p3.2
    let p4 ← parse2 r7
    let r9 ← expectChar ':' p4.2
    let p5 ← parse2 r9
    if p5.2 = [] ∧ 1 ≤ p1.1 ∧ p1.1 ≤ 12 ∧ 1 ≤ p2.1 ∧ p2.1 ≤ 31 ∧ p3.1 ≤ 23 ∧
        p4.1 ≤ 59 ∧ p5.1 ≤ 59 then
      some ⟨parseDigitsVal sp.1, p1.1, p2.1, p3.1, p4.1, p5.1⟩
    else none
  else none

/-- `value.endsWith('Z') ? value.slice(0, -1) : value`. -/
def stripTrailingZ (cs : List Char) : List Char :=
  if cs.getLast? = some 'Z' then cs.dropLast else cs

/-- `parseAsLocal` (lines 37-43). -/
def parseAsLocal (v : JSValue) : Option DateObj :=
  match v with
  | .undef => none
  | .str s =>
      if s = "" then none
      else
        some (match jsParseLocalDateTime (stripTrailingZ s.data) with
              | some r => DateObj.valid r
              | none => DateObj.invalid)
  | .date d => some d

end Curalis

namespace Curalis

theorem toBaseAux_eq_digits : ∀ fuel n, n ≤ fuel → toBaseAux 10 fuel n = Nat.digits 10 n := by
  intro fuel
  induction fuel with
  | zero =>
    intro n hn
    have : n = 0 := by omega
    subst this
    simp [toBaseAux]
  | succ f ih =>
    intro n hn
    by_cases h0 : n = 0
    · subst h0
      simp [toBaseAux]
    · have hpos : 0 < n := Nat.pos_of_ne_zero h0
      rw [Nat.digits_def' (by norm_num) hpos]
      simp only [toBaseAux, if_neg h0]
      rw [ih (n / 10) (by omega)]

theorem jsNat_data_eq (n : Nat) (h : n ≠ 0) :
    (jsNat n).data = ((Nat.digits 10 n).reverse.map Nat.digitChar) := by
  simp [jsNat, h, toBaseAux_eq_digits n n le_rfl]

theorem digitChar_isDigit (d : Nat) (h : d < 10) : (Nat.digitChar d).isDigit = true := by
  interval_cases d <;> decide

theorem digitChar_toNat (d : Nat) (h : d < 10) : (Nat.digitChar d).toNat = 48 + d := by
  interval_cases d <;> decide

theorem jsNat_all_digits (n : Nat) : ∀ c ∈ (jsNat n).data, c.isDigit = true := by
  by_cases h : n = 0
  · subst h
    intro c hc
    simp [jsNat] at hc
    subst hc
    decide
  · rw [jsNat_data_eq n h]
    intro c hc
    simp only [List.mem_map, List.mem_reverse] at hc
    obtain ⟨d, hd, rfl⟩ := hc
    exact digitChar_isDigit d (Nat.digits_lt_base (by norm_num) hd)

theorem parseDigitsVal_aux :
    ∀ (L : List Nat) (a : Nat), (∀ d ∈ L, d < 10) →
      List.foldl (fun acc c => acc * 10 + (c.toNat - 48)) a (L.map Nat.digitChar) =
        a * 10 ^ L.length + Nat.ofDigits 10 L.reverse := by
  intro L
  induction L with
  | nil => intro a _; simp
  | cons d tl ih =>
    intro a hlt
    have hd : d < 10 := hlt d (by simp)
    simp only [List.map_cons, List.foldl_cons, List.reverse_cons, List.length_cons]
    rw [digitChar_toNat d hd]
    have : a * 10 + (48 + d - 48) = a * 10 + d := by omega
    rw [this, ih (a * 10 + d) (fun x hx => hlt x (by simp [hx]))]
    have hof : Nat.ofDigits 10 (tl.reverse ++ [d]) =
        Nat.ofDigits 10 tl.reverse + 10 ^ tl.length * d := by
      rw [Nat.ofDigits_append]
      simp [Nat.ofDigits]
    rw [hof]
    ring

theorem parseDigitsVal_jsNat (n : Nat) : parseDigitsVal (jsNat n).data = n := by
  by_cases h : n = 0
  · subst h
    decide
  · rw [jsNat_data_eq n h]
    unfold parseDigitsVal
    rw [parseDigitsVal_aux ((Nat.digits 10 n).reverse) 0
      (fun d hd => Nat.digits_lt_base (by norm_num) (List.mem_reverse.mp hd))]
    simp [Nat.ofDigits_digits]

theorem jsNat_len4 (n : Nat) (h1 : 1000 ≤ n) (h2 : n ≤ 9999) :
    (jsNat n).data.length = 4 := by
  rw [jsNat_data_eq n (by omega)]
  simp only [List.length_map, List.length_reverse]
  rw [Nat.digits_len 10 n (by norm_num) (by omega)]
  have : Nat.log 10 n = 3 :=
    Nat.log_eq_of_pow_le_of_lt_pow (by norm_num; omega) (by norm_num; omega)
  omega

end Curalis

namespace Curalis

theorem pad2_spec (n : Nat) (h : n ≤ 99) :
    (pad2Chars n).length = 2 ∧ (∀ c ∈ pad2Chars n, c.isDigit = true) ∧
      parseDigitsVal (pad2Chars n) = n := by
  interval_cases n <;> exact ⟨by decide, by decide, by decide⟩

theorem takeWhile_append_stop (p : Char → Bool) (y : Char) (ys : List Char) :
    ∀ xs : List Char, (∀ x ∈ xs, p x = true) → p y = false →
      ((xs ++ y :: ys).takeWhile p) = xs := by
  intro xs
  induction xs with
  | nil =>
    intro _ hy
    simp [List.takeWhile_cons, hy]
  | cons x tl ih =>
    intro hall hy
    have hx : p x = true := hall x (by simp)
    simp only [List.cons_append, List.takeWhile_cons, hx, if_true]
    rw [ih (fun z hz => hall z (by simp [hz])) hy]

theorem dropWhile_append_stop (p : Char → Bool) (y : Char) (ys : List Char) :
    ∀ xs : List Char, (∀ x ∈ xs, p x = true) → p y = false →
      ((xs ++ y :: ys).dropWhile p) = y :: ys := by
  intro xs
  induction xs with
  | nil =>
    intro _ hy
    simp [List.dropWhile_cons, hy]
  | cons x tl ih =>
    intro hall hy
    have hx : p x = true := hall x (by simp)
    simp only [List.cons_append, List.dropWhile_cons, hx, if_true]
    exact ih (fun z hz => hall z (by simp [hz])) hy

theorem span_append_stop (p : Char → Bool) (y : Char) (ys xs : List Char)
    (hall : ∀ x ∈ xs, p x = true) (hy : p y = false) :
    ((xs ++ y :: ys).span p) = (xs, y :: ys) := by
  rw [List.span_eq_take_drop, takeWhile_append_stop p y ys xs hall hy,
    dropWhile_append_stop p y ys xs hall hy]

theorem expectChar_cons_self (c : Char) (rest : List Char) :
    expectChar c (c :: rest) = some rest := by
  simp [expectChar]

theorem parse2_pad2 (n : Nat) (rest : List Char) (h : n ≤ 99) :
    parse2 (pad2Chars n ++ rest) = some (n, rest) := by
  obtain ⟨hlen, hdig, hval⟩ := pad2_spec n h
  obtain ⟨c1, c2, hc⟩ := List.length_eq_two.mp hlen
  rw [hc]
  have h1 : c1.isDigit = true := hdig c1 (by simp [hc])
  have h2 : c2.isDigit = true := hdig c2 (by simp [hc])
  simp only [List.cons_append, List.nil_append, parse2, h1, h2, and_self, if_true]
  rw [hc] at hval
  simp [hval]

theorem isDigit_ne_Z (c : Char) (h : c.isDigit = true) : c ≠ 'Z' := by
  intro hz
  subst hz
  exact absurd h (by decide)

end Curalis

namespace Curalis

theorem getLast?_append_cons (xs : List Char) (y : Char) (ys : List Char) :
    (xs ++ y :: ys).getLast? = (y :: ys).getLast? := by
  rw [List.getLast?_append]
  rcases h : (y :: ys).getLast? with _ | a
  · exact absurd (List.getLast?_eq_none_iff.mp h) (by simp)
  · simp [Option.or]

theorem jsParse_format (year mo dy hh mi ss : Nat)
    (hy1 : 1000 ≤ year) (hy2 : year ≤ 9999) (hm1 : 1 ≤ mo) (hm2 : mo ≤ 12)
    (hd1 : 1 ≤ dy) (hd2 : dy ≤ 31) (hh2 : hh ≤ 23) (hmi2 : mi ≤ 59) (hss2 : ss ≤ 59) :
    jsParseLocalDateTime ((formatLocalISO ⟨year, mo, dy, hh, mi, ss⟩).data) =
      some ⟨year, mo, dy, hh, mi, ss⟩ := by
  have hdata : (formatLocalISO ⟨year, mo, dy, hh, mi, ss⟩).data =
      (jsNat year).data ++ '-' :: (pad2Chars mo ++ '-' :: (pad2Chars dy ++
        'T' :: (pad2Chars hh ++ ':' :: (pad2Chars mi ++ ':' :: pad2Chars ss)))) := rfl
  rw [hdata]
  have htake := takeWhile_append_stop Char.isDigit '-'
    (pad2Chars mo ++ '-' :: (pad2Chars dy ++ 'T' :: (pad2Chars hh ++ ':' ::
      (pad2Chars mi ++ ':' :: pad2Chars ss))))
    (jsNat year).data (jsNat_all_digits year) (by decide)
  have hdrop := dropWhile_append_stop Char.isDigit '-'
    (pad2Chars mo ++ '-' :: (pad2Chars dy ++ 'T' :: (pad2Chars hh ++ ':' ::
      (pad2Chars mi ++ ':' :: pad2Chars ss))))
    (jsNat year).data (jsNat_all_digits year) (by decide)
  have hpm : ∀ rest, parse2 (pad2Chars mo ++ rest) = some (mo, rest) :=
    fun r => parse2_pad2 mo r (by omega)
  have hpd : ∀ rest, parse2 (pad2Chars dy ++ rest) = some (dy, rest) :=
    fun r => parse2_pad2 dy r (by omega)
  have hph : ∀ rest, parse2 (pad2Chars hh ++ rest) = some (hh, rest) :=
    fun r => parse2_pad2 hh r (by omega)
  have hpmi : ∀ rest, parse2 (pad2Chars mi ++ rest) = some (mi, rest) :=
    fun r => parse2_pad2 mi r (by omega)
  have hpss : parse2 (pad2Chars ss) = some (ss, []) := by
    have h := parse2_pad2 ss [] (by omega)
    simpa using h
  simp [jsParseLocalDateTime, htake, hdrop, jsNat_len4 year hy1 hy2,
    expectChar_cons_self, hpm, hpd, hph, hpmi, hpss, hm1, hm2, hd1, hd2, hh2,
    hmi2, hss2, parseDigitsVal_jsNat]

/-- Claim C10: `parseAsLocal ∘ formatLocalISO` preserves the local
components of a date (`formatLocalISO` emits a zero-padded timezone-less
ISO string; `parseAsLocal` strips at most one trailing `Z` and parses as
local time); `parseAsLocal` returns `undefined` exactly on an empty or
undefined input and returns `Date` inputs unchanged. -/
theorem c10_parseAsLocal_roundtrip :
    (∀ d : DateRec,
      1000 ≤ d.year → d.year ≤ 9999 → 1 ≤ d.month → d.month ≤ 12 →
      1 ≤ d.day → d.day ≤ 31 → d.hours ≤ 23 → d.minutes ≤ 59 → d.seconds ≤ 59 →
      parseAsLocal (JSValue.str (formatLocalISO d)) = some (DateObj.valid d)) ∧
    (∀ v : JSValue, parseAsLocal v = none ↔ v = JSValue.undef ∨ v = JSValue.str "") ∧
    (∀ dobj : DateObj, parseAsLocal (JSValue.date dobj) = some dobj) := by
  refine ⟨?_, ?_, fun dobj => rfl⟩
  · rintro ⟨year, mo, dy, hh, mi, ss⟩ hy1 hy2 hm1 hm2 hd1 hd2 hh2 hmi2 hss2
    dsimp only at hy1 hy2 hm1 hm2 hd1 hd2 hh2 hmi2 hss2
    have hne : formatLocalISO ⟨year, mo, dy, hh, mi, ss⟩ ≠ "" := by
      intro h
      have hd := congrArg String.data h
      simp [formatLocalISO] at hd
    have hlast : ((formatLocalISO ⟨year, mo, dy, hh, mi, ss⟩).data).getLast? ≠ some 'Z' := by
      intro hz
      have hmem : 'Z' ∈ (formatLocalISO ⟨year, mo, dy, hh, mi, ss⟩).data :=
        List.mem_of_mem_getLast? (by rw [hz]; rfl)
      have hpads : ∀ n, n ≤ 99 → 'Z' ∉ pad2Chars n := by
        intro n hn hmemn
        exact absurd ((pad2_spec n hn).2.1 'Z' hmemn) (by decide)
      have hyearZ : 'Z' ∉ (jsNat year).data := by
        intro hmemy
        exact absurd (jsNat_all_digits year 'Z' hmemy) (by decide)
      have hform : (formatLocalISO ⟨year, mo, dy, hh, mi, ss⟩).data =
          (jsNat year).data ++ '-' :: (pad2Chars mo ++ '-' :: (pad2Chars dy ++
            'T' :: (pad2Chars hh ++ ':' :: (pad2Chars mi ++ ':' :: pad2Chars ss)))) := rfl
      rw [hform] at hmem
      rcases List.mem_append.mp hmem with h | h
      · exact hyearZ h
      rcases List.mem_cons.mp h with h | h
      · exact absurd h (by decide)
      rcases List.mem_append.mp h with h | h
      · exact hpads mo (by omega) h
      rcases List.mem_cons.mp h with h | h
      · exact absurd h (by decide)
      rcases List.mem_append.mp h with h | h
      · exact hpads dy (by omega) h
      rcases List.mem_cons.mp h with h | h
      · exact absurd h (by decide)
      rcases List.mem_append.mp h with h | h
      · exact hpads hh (by omega) h
      rcases List.mem_cons.mp h with h | h
      · exact absurd h (by decide)
      rcases List.mem_append.mp h with h | h
      · exact hpads mi (by omega) h
      rcases List.mem_cons.mp h with h | h
      · exact absurd h (by decide)
      exact hpads ss (by omega) h
    have hstrip : stripTrailingZ ((formatLocalISO ⟨year, mo, dy, hh, mi, ss⟩).data) =
        (formatLocalISO ⟨year, mo, dy, hh, mi, ss⟩).data := by
      simp only [stripTrailingZ, if_neg hlast]
    simp only [parseAsLocal, if_neg hne, hstrip,
      jsParse_format year mo dy hh mi ss hy1 hy2 hm1 hm2 hd1 hd2 hh2 hmi2 hss2]
  · intro v
    cases v with
    | undef => simp [parseAsLocal]
    | str s =>
        by_cases h : s = ""
        · subst h
          simp [parseAsLocal]
        · simp [parseAsLocal, h]
    | date dobj => simp [parseAsLocal]

/-- Concrete instance of `c10_parseAsLocal_roundtrip`: June 1 2024,
10:30:00 local time survives the format/parse round trip. -/
theorem c10_parseAsLocal_roundtrip_witness :
    parseAsLocal (JSValue.str (formatLocalISO ⟨2024, 6, 1, 10, 30, 0⟩)) =
      some (DateObj.valid ⟨2024, 6, 1, 10, 30, 0⟩) := by
  exact c10_parseAsLocal_roundtrip.1 ⟨2024, 6, 1, 10, 30, 0⟩ (by decide) (by decide) (by decide)
    (by decide) (by decide) (by decide) (by decide) (by decide) (by decide)

end Curalis

namespace Curalis

/-! ## Session state machine for avatar detachment (`AICheckInScreen.tsx`)

The refs and state cells consulted by the socket handlers, the WebView
`onMessage` handler and `startInterviewFlow` are gathered in `SessState`;
each asynchronous callback becomes one event of `sessStep`.
`startInterviewFlow` is split into its phases: the button press
(`userStartFlow`, only deliverable while no flow is running, the interview
has not started, and the screen is not done/connecting — the full-screen
`preparing` overlay blocks the button during a flow), the token fetch
result (`tokenResult`), and the end of the 45 s readiness wait
(`waitFinished`, whose branch is decided by the readiness refs, cf. C8). -/

inductive FlowPhase where
  | idle
  | fetchingToken
  | waitingAvatar
  deriving DecidableEq, Repr

structure SessState where
  heygenEnabled : Bool
  heygenToken : Option String
  avatarReady : Bool
  avatarSessionId : Option String
  awaitingAvatarTask : Bool
  canSpeak : Bool
  interviewStarted : Bool
  isDone : Bool
  isConnecting : Bool
  flow : FlowPhase
  pendingSpeakQueue : List String
  pendingAssistantText : String
  syncedTranscript : String
  transcript : String
  question : String
  deriving DecidableEq, Repr

inductive SessAction where
  | avatarSpeak (text : String)
  | localTTSDisplay (text : String)
  | localAudioPlay
  | emitStart
  deriving DecidableEq, Repr

/-- Messages posted by the avatar player, after the handler's pattern
matching (`session_id:`, the readiness regex, `TASK_OK:`, `TASK_DONE`,
`TASK_ERROR:`, the connection-problem regex, anything else). -/
inductive WebMsg where
  | sessionId (sid : String)
  | streamReady
  | taskOk (durationMs : Nat)
  | taskDone
  | taskError
  | connError
  | other
  deriving DecidableEq, Repr

inductive SessEvent where
  | userStartFlow
  | tokenResult (ok : Bool) (tok : String)
  | waitFinished
  | webMsg (m : WebMsg)
  | sockQuestion (text : String)
  | sockDelta (text : String)
  | sockFinal (text : String)
  | sockTurnReady
  | sockAiAudioDone
  | sockDone
  deriving DecidableEq, Repr

/-- `detachFromHeygen` (lines 62-69). -/
def detachFromHeygen (s : SessState) : SessState :=
  { s with heygenEnabled := false, heygenToken := none,
           avatarReady := false, awaitingAvatarTask := false }

/-- First call of `startRecording` (lines 349-360): start the interview
and emit the `start` event. -/
def startRecordingStep (s : SessState) : SessState × List SessAction :=
  if s.interviewStarted then (s, [])
  else ({ s with interviewStarted := true }, [SessAction.emitStart])

/-- The WebView is rendered only while
`(interviewStarted || preparing) && !!heygenToken` (line 583), so its
`onMessage` fires only then. -/
def webviewMounted (s : SessState) : Bool :=
  s.heygenToken.isSome && (s.interviewStarted || decide (s.flow ≠ FlowPhase.idle))

/-- `flushPendingSpeaks` (lines 219-226): when the avatar is ready, drain
the queue into avatar speak dispatches. -/
def flushPendingSpeaks (s : SessState) : SessState × List SessAction :=
  if s.avatarReady then
    ({ s with pendingSpeakQueue := [] }, s.pendingSpeakQueue.map SessAction.avatarSpeak)
  else (s, [])

/-- The WebView `onMessage` handler (lines 601-641). -/
def onWebMessage (s : SessState) (m : WebMsg) : SessState × List SessAction :=
  match m with
  | .sessionId sid => flushPendingSpeaks { s with avatarSessionId := some sid }
  | .streamReady => flushPendingSpeaks { s with avatarReady := true }
  | .taskOk _ => ({ s with awaitingAvatarTask := true, canSpeak := false }, [])
  | .taskDone =>
      ({ s with awaitingAvatarTask := false, canSpeak := true,
                syncedTranscript := if s.pendingAssistantText ≠ "" then
                  s.pendingAssistantText else s.syncedTranscript }, [])
  | .taskError => ({ detachFromHeygen s with canSpeak := true }, [])
  | .connError => ({ detachFromHeygen s with canSpeak := true }, [])
  | .other => (s, [])

/-- The two `assistant_text_delta` handlers (lines 116-125). -/
def onDelta (s : SessState) (text : String) : SessState :=
  { s with pendingAssistantText := if text ≠ "" then text else s.pendingAssistantText,
           canSpeak := false,
           awaitingAvatarTask := if s.heygenEnabled then true else s.awaitingAvatarTask }

/-- The `final_transcript` handler (lines 126-144): avatar path when
enabled (queue if not yet ready, else speak via the player), local TTS
display path otherwise. -/
def onFinalTranscript (s : SessState) (text : String) : SessState × List SessAction :=
  let s0 := { s with transcript := text,
                     pendingAssistantText := if text ≠ "" then text
                       else s.pendingAssistantText }
  if s0.heygenEnabled then
    if !s0.avatarReady then
      ({ s0 with pendingSpeakQueue := s0.pendingSpeakQueue ++ [text] }, [])
    else
      ({ s0 with awaitingAvatarTask := true, canSpeak := false },
        [SessAction.avatarSpeak text])
  else
    ({ s0 with syncedTranscript := text, canSpeak := false },
      [SessAction.localTTSDisplay text])

/-- The `turn_ready` handler (line 145). -/
def onTurnReady (s : SessState) : SessState :=
  if !s.heygenEnabled || !s.awaitingAvatarTask then { s with canSpeak := true } else s

/-- The `ai_audio_done` handler (lines 155-164). -/
def onAiAudioDone (s : SessState) : SessState × List SessAction :=
  if s.heygenEnabled then (s, [])
  else ({ s with canSpeak := true }, [SessAction.localAudioPlay])

def sessStep (s : SessState) (e : SessEvent) : SessState × List SessAction :=
  match e with
  | .userStartFlow =>
      if s.flow = FlowPhase.idle ∧ s.interviewStarted = false ∧ s.isDone = false ∧
          s.isConnecting = false then
        ({ s with flow := FlowPhase.fetchingToken }, [])
      else (s, [])
  | .tokenResult ok tok =>
      if s.flow = FlowPhase.fetchingToken then
        if ok then
          ({ s with heygenToken := some tok, avatarReady := false,
                    heygenEnabled := true, flow := FlowPhase.waitingAvatar }, [])
        else
          startRecordingStep { s with heygenEnabled := false, heygenToken := none,
                                      flow := FlowPhase.idle }
      else (s, [])
  | .waitFinished =>
      if s.flow = FlowPhase.waitingAvatar then
        if s.avatarReady = true ∧ s.avatarSessionId.isSome then
          startRecordingStep { s with flow := FlowPhase.idle }
        else
          startRecordingStep { s with heygenEnabled := false, heygenToken := none,
                                      flow := FlowPhase.idle }
      else (s, [])
  | .webMsg m => if webviewMounted s then onWebMessage s m else (s, [])
  | .sockQuestion t => ({ s with question := t }, [])
  | .sockDelta t => (onDelta s t, [])
  | .sockFinal t => onFinalTranscript s t
  | .sockTurnReady => (onTurnReady s, [])
  | .sockAiAudioDone => onAiAudioDone s
  | .sockDone => ({ s with isDone := true }, [])

/-- The session is in the permanently detached regime. -/
def Detached (s : SessState) : Prop :=
  s.heygenEnabled = false ∧ s.heygenToken = none ∧ s.avatarReady = false ∧
    s.flow ≠ FlowPhase.fetchingToken ∧
    (s.flow = FlowPhase.idle → s.interviewStarted = true)

/-- Reachability facts about the token cell: while the token fetch runs, or
while no flow runs and the interview has not started, no token is held. -/
def TokenInv (s : SessState) : Prop :=
  (s.flow = FlowPhase.fetchingToken → s.heygenToken = none) ∧
  (s.flow = FlowPhase.idle ∧ s.interviewStarted = false → s.heygenToken = none)

end Curalis

namespace Curalis

/-- Claim C4: once `detachFromHeygen` runs (for any avatar task error or
transport failure), the session stays detached for the rest of the
session: `heygenEnabledRef` stays false, no event can dispatch an avatar
speak request again, and every later `final_transcript` is routed to the
local TTS display path.  `TokenInv` is the invariant of every reachable
state; a detach event fired while the player is mounted lands in
`Detached`, and `Detached` is preserved by every event. -/
theorem c4_avatar_detach_permanent :
    (∀ (s : SessState) (e : SessEvent), TokenInv s → TokenInv (sessStep s e).1) ∧
    (∀ (s : SessState) (m : WebMsg), TokenInv s → webviewMounted s = true →
        m = WebMsg.taskError ∨ m = WebMsg.connError →
        Detached (sessStep s (SessEvent.webMsg m)).1) ∧
    (∀ (s : SessState) (e : SessEvent), Detached s →
        Detached (sessStep s e).1 ∧ ∀ t, SessAction.avatarSpeak t ∉ (sessStep s e).2) ∧
    (∀ (s : SessState) (t : String), Detached s →
        (sessStep s (SessEvent.sockFinal t)).2 = [SessAction.localTTSDisplay t] ∧
          ((sessStep s (SessEvent.sockFinal t)).1).syncedTranscript = t ∧
          ((sessStep s (SessEvent.sockFinal t)).1).canSpeak = false) := by
  refine ⟨?_, ?_, ?_, ?_⟩
  · -- TokenInv is inductive
    rintro s e ⟨h1, h2⟩
    cases e with
    | userStartFlow =>
      simp only [sessStep]
      split
      · rename_i hg
        exact ⟨fun _ => h2 ⟨hg.1, hg.2.1⟩, by simp⟩
      · exact ⟨h1, h2⟩
    | tokenResult ok tok =>
      simp only [sessStep]
      split
      · rename_i hg
        cases ok with
        | true => simp [TokenInv]
        | false =>
          simp only [Bool.false_eq_true, if_false, startRecordingStep]
          split <;> simp [TokenInv]
      · exact ⟨h1, h2⟩
    | waitFinished =>
      simp only [sessStep]
      split
      · rename_i hg
        split
        · simp only [startRecordingStep]
          split
          · rename_i hst
            exact ⟨by simp [TokenInv], by simp [TokenInv, hst]⟩
          · simp [TokenInv]
        · simp only [startRecordingStep]
          split <;> simp [TokenInv]
      · exact ⟨h1, h2⟩
    | webMsg m =>
      simp only [sessStep]
      split
      · cases m with
        | sessionId sid =>
          simp only [onWebMessage, flushPendingSpeaks]
          split <;> exact ⟨h1, h2⟩
        | streamReady =>
          simp only [onWebMessage, flushPendingSpeaks]
          split <;> exact ⟨h1, h2⟩
        | taskOk d => exact ⟨h1, h2⟩
        | taskDone => exact ⟨h1, h2⟩
        | taskError => exact ⟨by simp [onWebMessage, detachFromHeygen], by simp [onWebMessage, detachFromHeygen]⟩
        | connError => exact ⟨by simp [onWebMessage, detachFromHeygen], by simp [onWebMessage, detachFromHeygen]⟩
        | other => exact ⟨h1, h2⟩
      · exact ⟨h1, h2⟩
    | sockQuestion t => exact ⟨h1, h2⟩
    | sockDelta t => exact ⟨h1, h2⟩
    | sockFinal t =>
      simp only [sessStep, onFinalTranscript]
      split
      · split <;> exact ⟨h1, h2⟩
      · exact ⟨h1, h2⟩
    | sockTurnReady =>
      simp only [sessStep, onTurnReady]
      split <;> exact ⟨h1, h2⟩
    | sockAiAudioDone =>
      simp only [sessStep, onAiAudioDone]
      split <;> exact ⟨h1, h2⟩
    | sockDone => exact ⟨h1, h2⟩
  · -- a mounted detach lands in Detached
    rintro s m ⟨h1, _⟩ hmnt hm
    have htok : s.heygenToken.isSome = true := by
      simp only [webviewMounted, Bool.and_eq_true] at hmnt
      exact hmnt.1
    have hflow : s.flow ≠ FlowPhase.fetchingToken := by
      intro hf
      rw [h1 hf] at htok
      simp at htok
    have hidle : s.flow = FlowPhase.idle → s.interviewStarted = true := by
      intro hf
      simp only [webviewMounted, Bool.and_eq_true, Bool.or_eq_true,
        decide_eq_true_eq] at hmnt
      rcases hmnt.2 with h | h
      · exact h
      · exact absurd hf h
    have hgen : ∀ m', onWebMessage s m' =
        ({ detachFromHeygen s with canSpeak := true }, []) →
        Detached (sessStep s (SessEvent.webMsg m')).1 := by
      intro m' hw
      simp only [sessStep, hmnt, eq_self_iff_true, if_true, hw]
      exact ⟨rfl, rfl, rfl, hflow, hidle⟩
    rcases hm with rfl | rfl
    · exact hgen _ rfl
    · exact hgen _ rfl
  · -- Detached is preserved and dispatches no avatar speak
    rintro s e ⟨hen, htok, hrdy, hfl, hid⟩
    cases e with
    | userStartFlow =>
      have hguard : ¬ (s.flow = FlowPhase.idle ∧ s.interviewStarted = false ∧
          s.isDone = false ∧ s.isConnecting = false) := by
        rintro ⟨hfi, hst, -, -⟩
        rw [hid hfi] at hst
        simp at hst
      simp only [sessStep, if_neg hguard]
      exact ⟨⟨hen, htok, hrdy, hfl, hid⟩, by simp⟩
    | tokenResult ok tok =>
      simp only [sessStep, if_neg hfl]
      exact ⟨⟨hen, htok, hrdy, hfl, hid⟩, by simp⟩
    | waitFinished =>
      by_cases hw : s.flow = FlowPhase.waitingAvatar
      · have hcond : ¬ (s.avatarReady = true ∧ s.avatarSessionId.isSome = true) := by
          rintro ⟨hr, -⟩
          rw [hrdy] at hr
          simp at hr
        simp only [sessStep, if_pos hw, if_neg hcond, startRecordingStep]
        split <;>
          exact ⟨⟨rfl, rfl, hrdy, by simp, by simp_all⟩, by simp⟩
      · simp only [sessStep, if_neg hw]
        exact ⟨⟨hen, htok, hrdy, hfl, hid⟩, by simp⟩
    | webMsg m =>
      have hmnt : webviewMounted s = false := by
        simp [webviewMounted, htok]
      simp only [sessStep, hmnt, Bool.false_eq_true, if_false]
      exact ⟨⟨hen, htok, hrdy, hfl, hid⟩, by simp⟩
    | sockQuestion t => exact ⟨⟨hen, htok, hrdy, hfl, hid⟩, by simp [sessStep]⟩
    | sockDelta t =>
      refine ⟨?_, by simp [sessStep]⟩
      simp only [sessStep, onDelta, hen]
      exact ⟨rfl, htok, hrdy, hfl, hid⟩
    | sockFinal t =>
      simp only [sessStep, onFinalTranscript, hen, Bool.false_eq_true, if_false]
      exact ⟨⟨rfl, htok, hrdy, hfl, hid⟩, by simp⟩
    | sockTurnReady =>
      simp only [sessStep, onTurnReady]
      split <;> exact ⟨⟨hen, htok, hrdy, hfl, hid⟩, by simp⟩
    | sockAiAudioDone =>
      simp only [sessStep, onAiAudioDone, hen, Bool.false_eq_true, if_false]
      exact ⟨⟨rfl, htok, hrdy, hfl, hid⟩, by simp⟩
    | sockDone => exact ⟨⟨hen, htok, hrdy, hfl, hid⟩, by simp [sessStep]⟩
  · -- final_transcript routes to local TTS when detached
    rintro s t ⟨hen, -, -, -, -⟩
    simp [sessStep, onFinalTranscript, hen]

/-- Concrete instance of `c4_avatar_detach_permanent`: in a detached
mid-interview state, a `final_transcript` produces exactly the local TTS
display action. -/
theorem c4_avatar_detach_permanent_witness :
    (sessStep ⟨false, none, false, none, false, true, true, false, false, FlowPhase.idle,
        [], "", "", "", ""⟩ (SessEvent.sockFinal "All done")).2 =
      [SessAction.localTTSDisplay "All done"] := by
  exact (c4_avatar_detach_permanent.2.2.2 _ "All done"
    ⟨rfl, rfl, rfl, by decide, fun _ => rfl⟩).1

end Curalis
